import Mathlib

/-!
Shallow embedding of the solana-escrow program (src/processor.rs together
with the interfaces it consumes) and proofs of the specification claims.

Addresses (Pubkey) are modelled as natural numbers, u64 quantities as Nat
with explicit bounds of 2^64 where the source uses checked arithmetic.
The repository files error.rs, instruction.rs and state.rs are not present
under src/, and the host runtime plus the spl-token service are external
collaborators; those parts are modelled from the specification and marked
as such in their doc comments.  Everything else follows processor.rs.
-/

namespace SolanaEscrow

/-- u64 overflow bound. -/
def U64_BOUND : Nat := 2 ^ 64

/-- Modelled from the spec: error.rs is not under src/.  Spec section 7 lists
the program-specific error taxonomy carried as the custom error payload:
not-rent-exempt, expected-amount mismatch, arithmetic overflow while
sweeping a refund, and the codec error for malformed instructions. -/
inductive EscrowError where
  | InvalidInstruction
  | NotRentExempt
  | ExpectedAmountMismatch
  | AmountOverflow
deriving DecidableEq, Repr

/-- Errors surfaced by the handlers: the solana_program built-in errors used
by processor.rs, the custom escrow errors, and opaque failures propagated
from the external token sub-ledger service (spec section 6: such failures
pass through uninterpreted, identified here only by a numeric code). -/
inductive ProgramError where
  | MissingRequiredSignature
  | IncorrectProgramId
  | InvalidAccountData
  | UninitializedAccount
  | AccountAlreadyInitialized
  | Custom (e : EscrowError)
  | ExternalFailure (code : Nat)
deriving DecidableEq, Repr

/-- Modelled from the spec: state.rs is not under src/.  Spec section 3
gives the escrow record fields: an initialized flag, three addresses and
the expected amount.  Field names follow the identifiers used by
processor.rs when it assigns them. -/
structure Escrow where
  is_initialized : Bool
  initializer_pubkey : Nat
  temp_token_account_pubkey : Nat
  initializer_token_to_receive_account_pubkey : Nat
  expected_amount : Nat
deriving DecidableEq, Repr

/-- Modelled from the spec: the external token sub-ledger account state
(spl_token::state::Account).  The handlers read its amount, and the token
service checks its authority (owner); the mint is carried but never
cross-checked (spec section 9 open question). -/
structure TokenAccount where
  mint : Nat
  owner : Nat
  amount : Nat
deriving DecidableEq, Repr

/-- The raw data held in an account's storage slot.  A slot that packs an
escrow record is `escrow e` (a freshly allocated zeroed slot of the right
size decodes as the default record with `is_initialized = false`), a token
sub-ledger account is `token t`, and anything that decodes as neither is
`raw bs` (its bytes). -/
inductive AccountData where
  | token (t : TokenAccount)
  | escrow (e : Escrow)
  | raw (bs : List Nat)
deriving DecidableEq, Repr

/-- Modelled from the spec: byte length of a packed escrow record
(flag byte + three 32-byte addresses + 8-byte amount, spec section 3). -/
def ESCROW_LEN : Nat := 105

/-- Modelled from the spec: byte length of a packed token account. -/
def TOKEN_ACCOUNT_LEN : Nat := 165

/-- Data length of a slot, as account_info.data_len() reports it. -/
def AccountData.len : AccountData → Nat
  | .token _ => TOKEN_ACCOUNT_LEN
  | .escrow _ => ESCROW_LEN
  | .raw bs => bs.length

/-- One account of an invocation's account list: its address, the signer
flag for the current invocation, its lamport balance, the program that owns
it, and its raw data (host account interface, spec section 6). -/
structure AccountInfo where
  key : Nat
  is_signer : Bool
  lamports : Nat
  owner : Nat
  data : AccountData
deriving DecidableEq, Repr

/-- Modelled from the spec: the identity of the external token sub-ledger
service (spl_token::id()), an arbitrary fixed address. -/
def spl_token_id : Nat := 961

/-- Modelled from the spec: rent sysvar parameters (host rent economics). -/
structure Rent where
  lamports_per_byte_year : Nat
  exemption_threshold_years : Nat
deriving DecidableEq, Repr

/-- Modelled from the spec: the rent-exemption threshold for a slot of the
given size. -/
def Rent.minimum_balance (r : Rent) (data_len : Nat) : Nat :=
  (128 + data_len) * r.lamports_per_byte_year * r.exemption_threshold_years

/-- Rent::is_exempt: the balance meets the rent-exemption threshold for the
slot's size. -/
def Rent.is_exempt (r : Rent) (lamports : Nat) (data_len : Nat) : Bool :=
  r.minimum_balance data_len ≤ lamports

/-- The fixed derivation seed b"escrow" used by both handlers, as bytes. -/
def escrowSeed : List Nat := [101, 115, 99, 114, 111, 119]

/-- Mixes one seed into a number (component of the derivation function). -/
def seedNat (s : List Nat) : Nat := s.foldl (fun a b => a * 257 + b + 1) 1

/-- Modelled from the spec: Pubkey::find_program_address, the deterministic
custody-address deriver: from the seed list and the program identity it
produces the derived address and its nonce (spec section 4.2).  The
concrete mixing function is arbitrary; the development relies only on it
being a deterministic function of exactly these inputs. -/
def find_program_address (seeds : List (List Nat)) (program_id : Nat) :
    Nat × Nat :=
  let h := seeds.foldl (fun a s => a * 1000003 + seedNat s) 1
  (2 * h + 3 * program_id + 5, (h + program_id) % 256)

/-- Modelled from the spec: the host's keyless authenticated call check.
Presented signer seeds (the fixed seed plus the one-byte nonce)
authenticate an authority address exactly when re-derivation from those
seeds and the calling program's identity reproduces that address
(spec section 6, custody derivation and keyless call primitives). -/
def seedsAuthenticate (seeds : List (List Nat)) (program_id : Nat)
    (authority : Nat) : Bool :=
  match seeds with
  | [s, [n]] => find_program_address [s] program_id = (authority, n)
  | _ => false

/-- The instruction content of one external call issued to the token
sub-ledger service. -/
inductive TokenIx where
  | setAuthority (account : Nat) (new_authority : Nat)
      (current_authority : Nat)
  | transfer (source : Nat) (dest : Nat) (authority : Nat) (amount : Nat)
  | closeAccount (account : Nat) (dest : Nat) (authority : Nat)
deriving DecidableEq, Repr

/-- One external call: the service invoked, the instruction, and the signer
seeds presented (empty for a directly-authenticated invoke, the derivation
seeds for invoke_signed). -/
structure ExtCall where
  program : Nat
  ix : TokenIx
  signer_seeds : List (List Nat)
deriving DecidableEq, Repr

/-- Modelled from the spec: Escrow::unpack_unchecked — decode the slot's
bytes as a record regardless of the initialized flag; fails when the slot
does not hold record-shaped data. -/
def Escrow.unpack_unchecked (d : AccountData) : Except ProgramError Escrow :=
  match d with
  | .escrow e => .ok e
  | _ => .error .InvalidAccountData

/-- Modelled from the spec: Escrow::unpack — decode and additionally
require the record to be initialized (the slot does not decode as an
active record otherwise, spec section 4.4 state machine). -/
def Escrow.unpack (d : AccountData) : Except ProgramError Escrow :=
  match Escrow.unpack_unchecked d with
  | .error e => .error e
  | .ok e =>
    if e.is_initialized then .ok e else .error .UninitializedAccount

/-- Modelled from the spec: TokenAccount::unpack — decode the slot's bytes
as a token sub-ledger account. -/
def TokenAccount.unpack (d : AccountData) : Except ProgramError TokenAccount :=
  match d with
  | .token t => .ok t
  | _ => .error .InvalidAccountData

/-- Modelled from the spec: the token service's set_authority operation
(spec section 6): requires the account to be a token account whose current
authority matches and whose authority authenticated the call; replaces the
authority. -/
def spl_set_authority (acct : AccountInfo) (new_authority : Nat)
    (current_authority : Nat) (auth_proven : Bool) :
    Except ProgramError AccountInfo :=
  match acct.data with
  | .token t =>
    if t.owner ≠ current_authority then .error (.ExternalFailure 4)
    else if ¬ auth_proven then .error (.ExternalFailure 3)
    else .ok { acct with data := .token { t with owner := new_authority } }
  | _ => .error .InvalidAccountData

/-- Modelled from the spec: the token service's transfer operation
(spec section 6): both sides must be token accounts, the source's
authority must match and must have authenticated the call, the source
must hold the amount, and the destination balance must not overflow u64;
moves the amount. -/
def spl_transfer (src : AccountInfo) (dst : AccountInfo) (authority : Nat)
    (auth_proven : Bool) (amount : Nat) :
    Except ProgramError (AccountInfo × AccountInfo) :=
  match src.data, dst.data with
  | .token s, .token d =>
    if s.owner ≠ authority then .error (.ExternalFailure 4)
    else if ¬ auth_proven then .error (.ExternalFailure 3)
    else if s.amount < amount then .error (.ExternalFailure 1)
    else if U64_BOUND ≤ d.amount + amount then .error (.ExternalFailure 2)
    else .ok
      ({ src with data := .token { s with amount := s.amount - amount } },
       { dst with data := .token { d with amount := d.amount + amount } })
  | _, _ => .error .InvalidAccountData

/-- Modelled from the spec: the token service's close_account operation
(spec section 6): the account must be a token account whose authority
matches and authenticated the call; its whole lamport balance is refunded
to the destination (guarding u64 overflow) and the account is destroyed
(zero balance, data cleared). -/
def spl_close_account (acct : AccountInfo) (dest : AccountInfo)
    (authority : Nat) (auth_proven : Bool) :
    Except ProgramError (AccountInfo × AccountInfo) :=
  match acct.data with
  | .token t =>
    if t.owner ≠ authority then .error (.ExternalFailure 4)
    else if ¬ auth_proven then .error (.ExternalFailure 3)
    else if U64_BOUND ≤ dest.lamports + acct.lamports then
      .error (.ExternalFailure 2)
    else .ok
      ({ acct with lamports := 0, data := .raw [] },
       { dest with lamports := dest.lamports + acct.lamports })
  | _ => .error .InvalidAccountData

/-- The six accounts supplied to Initiate, in the positional order of
process_init_escrow (processor.rs lines 45-64), with the rent sysvar
account already parsed into its Rent parameters. -/
structure InitAccounts where
  initializer : AccountInfo
  temp_token_account : AccountInfo
  token_to_receive_account : AccountInfo
  escrow_account : AccountInfo
  rent : Rent
  token_program : AccountInfo
deriving DecidableEq, Repr

/-- The result of one handler invocation: on success the updated accounts
and the external calls issued, on failure the error together with the
external calls issued before the abort (the host rolls back every local
mutation of a failed invocation, so an error result carries no state). -/
abbrev HandlerResult (σ : Type) := Except (ProgramError × List ExtCall) (σ × List ExtCall)

/-- Processor::process_init_escrow (processor.rs lines 40-109): check the
initializer signed, the receiving account is owned by the token service,
the record slot is rent-exempt and currently uninitialized; then populate
the record, derive the custody address, and issue the set_authority call
moving the deposit account's authority from the initializer to the derived
address. -/
def process_init_escrow (accs : InitAccounts) (amount : Nat)
    (program_id : Nat) : HandlerResult InitAccounts :=
  if ¬ accs.initializer.is_signer then
    .error (.MissingRequiredSignature, [])
  else if accs.token_to_receive_account.owner ≠ spl_token_id then
    .error (.IncorrectProgramId, [])
  else if ¬ accs.rent.is_exempt accs.escrow_account.lamports
      accs.escrow_account.data.len then
    .error (.Custom .NotRentExempt, [])
  else
    match Escrow.unpack_unchecked accs.escrow_account.data with
    | .error e => .error (e, [])
    | .ok escrow_info =>
      if escrow_info.is_initialized then
        .error (.AccountAlreadyInitialized, [])
      else
        let new_info : Escrow :=
          { is_initialized := true
            initializer_pubkey := accs.initializer.key
            temp_token_account_pubkey := accs.temp_token_account.key
            initializer_token_to_receive_account_pubkey :=
              accs.token_to_receive_account.key
            expected_amount := amount }
        let escrow_account' :=
          { accs.escrow_account with data := .escrow new_info }
        let pda := (find_program_address [escrowSeed] program_id).1
        let owner_change_call : ExtCall :=
          { program := accs.token_program.key
            ix := .setAuthority accs.temp_token_account.key pda
              accs.initializer.key
            signer_seeds := [] }
        match spl_set_authority accs.temp_token_account pda
            accs.initializer.key accs.initializer.is_signer with
        | .error e => .error (e, [owner_change_call])
        | .ok temp' =>
          .ok ({ accs with
                  temp_token_account := temp'
                  escrow_account := escrow_account' },
               [owner_change_call])

/-- The nine accounts supplied to Exchange, in the positional order of
process_exchange (processor.rs lines 111-185). -/
structure ExchangeAccounts where
  taker : AccountInfo
  takers_sending_token_account : AccountInfo
  takers_token_to_receive_account : AccountInfo
  pdas_temp_token_account : AccountInfo
  initializers_main_account : AccountInfo
  initializers_token_to_receive_account : AccountInfo
  escrow_account : AccountInfo
  token_program : AccountInfo
  pda_account : AccountInfo
deriving DecidableEq, Repr

/-- Processor::process_exchange (processor.rs lines 111-238): check the
taker signed, decode the deposit token account, re-derive the custody
address, check the taker-supplied amount against the deposit balance,
decode the record and check its three identities; then issue the three
external calls (taker-authenticated transfer of the expected amount,
custody-authenticated transfer of the deposit balance, custody-
authenticated close of the deposit account) and finally sweep the record
slot's lamports into the initializer's main account with checked addition
and clear the record. -/
def process_exchange (accs : ExchangeAccounts)
    (amount_expected_by_taker : Nat) (program_id : Nat) :
    HandlerResult ExchangeAccounts :=
  if ¬ accs.taker.is_signer then
    .error (.MissingRequiredSignature, [])
  else
    match TokenAccount.unpack accs.pdas_temp_token_account.data with
    | .error e => .error (e, [])
    | .ok pdas_temp_token_account_info =>
      let pda := (find_program_address [escrowSeed] program_id).1
      let nonce := (find_program_address [escrowSeed] program_id).2
      if amount_expected_by_taker ≠ pdas_temp_token_account_info.amount then
        .error (.Custom .ExpectedAmountMismatch, [])
      else
        match Escrow.unpack accs.escrow_account.data with
        | .error e => .error (e, [])
        | .ok escrow_info =>
          if escrow_info.temp_token_account_pubkey ≠
              accs.pdas_temp_token_account.key then
            .error (.InvalidAccountData, [])
          else if escrow_info.initializer_pubkey ≠
              accs.initializers_main_account.key then
            .error (.InvalidAccountData, [])
          else if escrow_info.initializer_token_to_receive_account_pubkey ≠
              accs.initializers_token_to_receive_account.key then
            .error (.InvalidAccountData, [])
          else
            let call1 : ExtCall :=
              { program := accs.token_program.key
                ix := .transfer accs.takers_sending_token_account.key
                  accs.initializers_token_to_receive_account.key
                  accs.taker.key escrow_info.expected_amount
                signer_seeds := [] }
            match spl_transfer accs.takers_sending_token_account
                accs.initializers_token_to_receive_account accs.taker.key
                accs.taker.is_signer escrow_info.expected_amount with
            | .error e => .error (e, [call1])
            | .ok (sending', init_recv') =>
              let seeds : List (List Nat) := [escrowSeed, [nonce]]
              let call2 : ExtCall :=
                { program := accs.token_program.key
                  ix := .transfer accs.pdas_temp_token_account.key
                    accs.takers_token_to_receive_account.key pda
                    pdas_temp_token_account_info.amount
                  signer_seeds := seeds }
              match spl_transfer accs.pdas_temp_token_account
                  accs.takers_token_to_receive_account pda
                  (seedsAuthenticate seeds program_id pda)
                  pdas_temp_token_account_info.amount with
              | .error e => .error (e, [call1, call2])
              | .ok (temp', takers_recv') =>
                let call3 : ExtCall :=
                  { program := accs.token_program.key
                    ix := .closeAccount accs.pdas_temp_token_account.key
                      accs.initializers_main_account.key pda
                    signer_seeds := seeds }
                match spl_close_account temp'
                    accs.initializers_main_account pda
                    (seedsAuthenticate seeds program_id pda) with
                | .error e => .error (e, [call1, call2, call3])
                | .ok (temp_closed, main') =>
                  if U64_BOUND ≤ main'.lamports +
                      accs.escrow_account.lamports then
                    .error (.Custom .AmountOverflow, [call1, call2, call3])
                  else
                    .ok ({ accs with
                            takers_sending_token_account := sending'
                            takers_token_to_receive_account := takers_recv'
                            pdas_temp_token_account := temp_closed
                            initializers_main_account :=
                              { main' with lamports :=
                                  main'.lamports +
                                    accs.escrow_account.lamports }
                            initializers_token_to_receive_account :=
                              init_recv'
                            escrow_account :=
                              { accs.escrow_account with
                                  lamports := 0, data := .raw [] } },
                         [call1, call2, call3])

/-! ### Inversion lemmas for the external token operations -/

/-- Successful set_authority: the account was a token account whose
authority matched and authenticated, and only the authority changed. -/
theorem spl_set_authority_ok {acct : AccountInfo} {na ca : Nat} {p : Bool}
    {acct' : AccountInfo}
    (h : spl_set_authority acct na ca p = .ok acct') :
    ∃ t, acct.data = .token t ∧ t.owner = ca ∧ p = true ∧
      acct' = { acct with data := .token { t with owner := na } } := by
  unfold spl_set_authority at h
  split at h
  case h_1 t heq =>
    split at h
    · exact absurd h (by simp)
    · split at h
      · exact absurd h (by simp)
      · refine ⟨t, heq, by tauto, by tauto, ?_⟩
        exact (Except.ok.injEq _ _).mp h |>.symm
  case h_2 => exact absurd h (by simp)

/-- Successful transfer: both sides were token accounts, the source's
authority matched and authenticated, the funds sufficed, the destination
did not overflow, and the amount moved from source to destination. -/
theorem spl_transfer_ok {src dst : AccountInfo} {auth : Nat} {p : Bool}
    {amt : Nat} {src' dst' : AccountInfo}
    (h : spl_transfer src dst auth p amt = .ok (src', dst')) :
    ∃ s d, src.data = .token s ∧ dst.data = .token d ∧
      s.owner = auth ∧ p = true ∧ amt ≤ s.amount ∧
      d.amount + amt < U64_BOUND ∧
      src' = { src with data := .token { s with amount := s.amount - amt } } ∧
      dst' = { dst with data := .token { d with amount := d.amount + amt } } := by
  unfold spl_transfer at h
  split at h
  case h_1 s d heqs heqd =>
    split at h
    · exact absurd h (by simp)
    · split at h
      · exact absurd h (by simp)
      · split at h
        · exact absurd h (by simp)
        · split at h
          · exact absurd h (by simp)
          · refine ⟨s, d, heqs, heqd, by tauto, by tauto, by omega, by omega, ?_, ?_⟩
            · exact congrArg Prod.fst ((Except.ok.injEq _ _).mp h) |>.symm
            · exact congrArg Prod.snd ((Except.ok.injEq _ _).mp h) |>.symm
  case h_2 => exact absurd h (by simp)

/-- Successful close_account: the account was a token account whose
authority matched and authenticated, the refund did not overflow, the
account ended destroyed and its lamports landed on the destination. -/
theorem spl_close_account_ok {acct dest : AccountInfo} {auth : Nat}
    {p : Bool} {acct' dest' : AccountInfo}
    (h : spl_close_account acct dest auth p = .ok (acct', dest')) :
    ∃ t, acct.data = .token t ∧ t.owner = auth ∧ p = true ∧
      dest.lamports + acct.lamports < U64_BOUND ∧
      acct' = { acct with lamports := 0, data := .raw [] } ∧
      dest' = { dest with lamports := dest.lamports + acct.lamports } := by
  unfold spl_close_account at h
  split at h
  case h_1 t heq =>
    split at h
    · exact absurd h (by simp)
    · split at h
      · exact absurd h (by simp)
      · split at h
        · exact absurd h (by simp)
        · refine ⟨t, heq, by tauto, by tauto, by omega, ?_, ?_⟩
          · exact congrArg Prod.fst ((Except.ok.injEq _ _).mp h) |>.symm
          · exact congrArg Prod.snd ((Except.ok.injEq _ _).mp h) |>.symm
  case h_2 => exact absurd h (by simp)

/-- Successful token-account decode characterized. -/
theorem tokenAccount_unpack_ok {d : AccountData} {t : TokenAccount}
    (h : TokenAccount.unpack d = .ok t) : d = .token t := by
  cases d with
  | token t' => simp only [TokenAccount.unpack, Except.ok.injEq] at h; rw [h]
  | escrow e => simp [TokenAccount.unpack] at h
  | raw bs => simp [TokenAccount.unpack] at h

/-- Successful record decode characterized: the slot held a packed record
and it was initialized. -/
theorem escrow_unpack_ok {d : AccountData} {e : Escrow}
    (h : Escrow.unpack d = .ok e) :
    d = .escrow e ∧ e.is_initialized = true := by
  cases d with
  | token t => simp [Escrow.unpack, Escrow.unpack_unchecked] at h
  | escrow e' =>
    simp only [Escrow.unpack, Escrow.unpack_unchecked] at h
    by_cases hinit : e'.is_initialized = true
    · simp only [hinit, if_true, Except.ok.injEq] at h
      subst h
      exact ⟨rfl, hinit⟩
    · simp [hinit] at h
  | raw bs => simp [Escrow.unpack, Escrow.unpack_unchecked] at h

/-- Claim C1: on every successful Exchange invocation, the initializer's
receiving account balance grows by exactly the record's expected_amount
(taken from the taker's sending account), the taker's receiving account
balance grows by exactly the deposit account's pre-call token balance, the
deposit account ends closed with its storage deposit refunded into the
initializer's main account, the escrow record slot's lamports are swept
into the initializer's main account and zeroed, and the record's contents
are cleared. -/
theorem exchange_success_effects (accs : ExchangeAccounts) (a pid : Nat)
    (st : ExchangeAccounts) (tr : List ExtCall)
    (h : process_exchange accs a pid = .ok (st, tr)) :
    ∃ e t s0 ir0 tk0,
      Escrow.unpack accs.escrow_account.data = .ok e ∧
      TokenAccount.unpack accs.pdas_temp_token_account.data = .ok t ∧
      accs.takers_sending_token_account.data = .token s0 ∧
      accs.initializers_token_to_receive_account.data = .token ir0 ∧
      accs.takers_token_to_receive_account.data = .token tk0 ∧
      st.initializers_token_to_receive_account.data =
        .token { ir0 with amount := ir0.amount + e.expected_amount } ∧
      st.takers_sending_token_account.data =
        .token { s0 with amount := s0.amount - e.expected_amount } ∧
      st.takers_token_to_receive_account.data =
        .token { tk0 with amount := tk0.amount + t.amount } ∧
      st.pdas_temp_token_account.lamports = 0 ∧
      st.pdas_temp_token_account.data = .raw [] ∧
      st.escrow_account.lamports = 0 ∧
      st.escrow_account.data = .raw [] ∧
      st.initializers_main_account.lamports =
        accs.initializers_main_account.lamports +
          accs.pdas_temp_token_account.lamports +
          accs.escrow_account.lamports := by
  simp only [process_exchange] at h
  split at h
  · exact absurd h (by simp)
  split at h
  · exact absurd h (by simp)
  case h_2 t hunpt =>
  split at h
  · exact absurd h (by simp)
  split at h
  · exact absurd h (by simp)
  case h_2 e hunpe =>
  split at h
  · exact absurd h (by simp)
  split at h
  · exact absurd h (by simp)
  split at h
  · exact absurd h (by simp)
  split at h
  · exact absurd h (by simp)
  case h_2 sending' init_recv' htr1 =>
  split at h
  · exact absurd h (by simp)
  case h_2 temp' takers_recv' htr2 =>
  split at h
  · exact absurd h (by simp)
  case h_2 temp_closed main' hcl =>
  split at h
  · exact absurd h (by simp)
  case isFalse hnof =>
  obtain ⟨s0, ir0, hs0, hir0, _, _, _, _, rfl, rfl⟩ := spl_transfer_ok htr1
  obtain ⟨t2, tk0, ht2, htk0, _, _, _, _, rfl, rfl⟩ := spl_transfer_ok htr2
  obtain ⟨t3, ht3, _, _, _, rfl, rfl⟩ := spl_close_account_ok hcl
  have hdata := tokenAccount_unpack_ok hunpt
  rw [hdata] at ht2
  cases ht2
  simp only [AccountData.token.injEq] at ht3
  simp only [Except.ok.injEq, Prod.mk.injEq] at h
  obtain ⟨hst, -⟩ := h
  subst hst
  exact ⟨e, t, s0, ir0, tk0, hunpe, hunpt, hs0, hir0, htk0,
    rfl, rfl, rfl, rfl, rfl, rfl, rfl, by simp [Nat.add_assoc]⟩

/-! ### Concrete scenario (spec section 8, Scenario A): the initializer
locked 100 units expecting 50; the taker supplies amount 100. -/

/-- Custody address for the concrete program identity 11. -/
def exPda : Nat := (find_program_address [escrowSeed] 11).1

/-- Custody nonce for the concrete program identity 11. -/
def exNonce : Nat := (find_program_address [escrowSeed] 11).2

/-- Concrete Exchange account list for Scenario A. -/
def exA : ExchangeAccounts :=
  { taker := ⟨20, true, 100, 0, .raw []⟩
    takers_sending_token_account := ⟨21, false, 100, 961, .token ⟨5, 20, 50⟩⟩
    takers_token_to_receive_account := ⟨22, false, 100, 961, .token ⟨6, 20, 0⟩⟩
    pdas_temp_token_account := ⟨23, false, 2000000, 961, .token ⟨6, exPda, 100⟩⟩
    initializers_main_account := ⟨24, false, 500, 0, .raw []⟩
    initializers_token_to_receive_account := ⟨25, false, 100, 961, .token ⟨5, 24, 7⟩⟩
    escrow_account := ⟨26, false, 3000000, 11, .escrow ⟨true, 24, 23, 25, 50⟩⟩
    token_program := ⟨961, false, 1, 0, .raw []⟩
    pda_account := ⟨exPda, false, 0, 0, .raw []⟩ }

/-- The account state after the Scenario A Exchange. -/
def exAOut : ExchangeAccounts :=
  { exA with
    takers_sending_token_account := ⟨21, false, 100, 961, .token ⟨5, 20, 0⟩⟩
    takers_token_to_receive_account := ⟨22, false, 100, 961, .token ⟨6, 20, 100⟩⟩
    pdas_temp_token_account := ⟨23, false, 0, 961, .raw []⟩
    initializers_main_account := ⟨24, false, 5000500, 0, .raw []⟩
    initializers_token_to_receive_account := ⟨25, false, 100, 961, .token ⟨5, 24, 57⟩⟩
    escrow_account := ⟨26, false, 0, 11, .raw []⟩ }

/-- The three external calls issued by the Scenario A Exchange. -/
def exACalls : List ExtCall :=
  [⟨961, .transfer 21 25 20 50, []⟩,
   ⟨961, .transfer 23 22 exPda 100, [escrowSeed, [exNonce]]⟩,
   ⟨961, .closeAccount 23 24 exPda, [escrowSeed, [exNonce]]⟩]

/-- Witness for C1: the Scenario A Exchange succeeds and shows all the
claimed balance, closure and sweep effects. -/
theorem exchange_success_effects_witness :
    ∃ e t s0 ir0 tk0,
      Escrow.unpack exA.escrow_account.data = .ok e ∧
      TokenAccount.unpack exA.pdas_temp_token_account.data = .ok t ∧
      exA.takers_sending_token_account.data = .token s0 ∧
      exA.initializers_token_to_receive_account.data = .token ir0 ∧
      exA.takers_token_to_receive_account.data = .token tk0 ∧
      exAOut.initializers_token_to_receive_account.data =
        .token { ir0 with amount := ir0.amount + e.expected_amount } ∧
      exAOut.takers_sending_token_account.data =
        .token { s0 with amount := s0.amount - e.expected_amount } ∧
      exAOut.takers_token_to_receive_account.data =
        .token { tk0 with amount := tk0.amount + t.amount } ∧
      exAOut.pdas_temp_token_account.lamports = 0 ∧
      exAOut.pdas_temp_token_account.data = .raw [] ∧
      exAOut.escrow_account.lamports = 0 ∧
      exAOut.escrow_account.data = .raw [] ∧
      exAOut.initializers_main_account.lamports =
        exA.initializers_main_account.lamports +
          exA.pdas_temp_token_account.lamports +
          exA.escrow_account.lamports :=
  exchange_success_effects exA 100 11 exAOut exACalls (by rfl)

/-- Claim C2: on every successful Initiate invocation the record ends
initialized with its four fields equal to the supplied accounts and amount,
and the deposit account's authority is set to the derived custody
address. -/
theorem init_success_effects (accs : InitAccounts) (a pid : Nat)
    (st : InitAccounts) (tr : List ExtCall)
    (h : process_init_escrow accs a pid = .ok (st, tr)) :
    st.escrow_account.data = .escrow
      { is_initialized := true
        initializer_pubkey := accs.initializer.key
        temp_token_account_pubkey := accs.temp_token_account.key
        initializer_token_to_receive_account_pubkey :=
          accs.token_to_receive_account.key
        expected_amount := a } ∧
    ∃ t0, accs.temp_token_account.data = .token t0 ∧
      st.temp_token_account.data =
        .token { t0 with owner := (find_program_address [escrowSeed] pid).1 } := by
  simp only [process_init_escrow] at h
  split at h
  · exact absurd h (by simp)
  split at h
  · exact absurd h (by simp)
  split at h
  · exact absurd h (by simp)
  split at h
  · exact absurd h (by simp)
  case h_2 escrow_info hunp =>
  split at h
  · exact absurd h (by simp)
  split at h
  · exact absurd h (by simp)
  case h_2 temp' hsa =>
  obtain ⟨t0, ht0, -, -, rfl⟩ := spl_set_authority_ok hsa
  simp only [Except.ok.injEq, Prod.mk.injEq] at h
  obtain ⟨hst, -⟩ := h
  subst hst
  exact ⟨rfl, t0, ht0, rfl⟩

/-- Concrete Initiate account list: the initializer locks the deposit
account holding 100 units and asks for 50. -/
def inA : InitAccounts :=
  { initializer := ⟨24, true, 10, 0, .raw []⟩
    temp_token_account := ⟨23, false, 2000000, 961, .token ⟨6, 24, 100⟩⟩
    token_to_receive_account := ⟨25, false, 100, 961, .token ⟨5, 24, 7⟩⟩
    escrow_account := ⟨26, false, 3000000, 11, .escrow ⟨false, 0, 0, 0, 0⟩⟩
    rent := ⟨10, 2⟩
    token_program := ⟨961, false, 1, 0, .raw []⟩ }

/-- The account state after the concrete Initiate. -/
def inAOut : InitAccounts :=
  { inA with
    temp_token_account := ⟨23, false, 2000000, 961, .token ⟨6, exPda, 100⟩⟩
    escrow_account := ⟨26, false, 3000000, 11, .escrow ⟨true, 24, 23, 25, 50⟩⟩ }

/-- The single external call issued by the concrete Initiate. -/
def inACalls : List ExtCall := [⟨961, .setAuthority 23 exPda 24, []⟩]

/-- Witness for C2: the concrete Initiate succeeds, populates the record
from its inputs and re-owns the deposit account to the custody address. -/
theorem init_success_effects_witness :
    inAOut.escrow_account.data = .escrow
      { is_initialized := true
        initializer_pubkey := inA.initializer.key
        temp_token_account_pubkey := inA.temp_token_account.key
        initializer_token_to_receive_account_pubkey :=
          inA.token_to_receive_account.key
        expected_amount := 50 } ∧
    ∃ t0, inA.temp_token_account.data = .token t0 ∧
      inAOut.temp_token_account.data =
        .token { t0 with owner := (find_program_address [escrowSeed] 11).1 } :=
  init_success_effects inA 50 11 inAOut inACalls (by rfl)

/-- The Scenario A account list with the taker not signing. -/
def exNs : ExchangeAccounts := { exA with taker := ⟨20, false, 100, 0, .raw []⟩ }

/-- Counterexample to C3 as stated: an Exchange invocation whose supplied
amount (999) differs from the deposit account's token balance (100) but
whose taker did not sign fails with the signature error, not with
ExpectedAmountMismatch. -/
theorem exchange_amount_mismatch_nonsigner_cex :
    (999 : Nat) ≠ 100 ∧
    TokenAccount.unpack exNs.pdas_temp_token_account.data =
      .ok ⟨6, exPda, 100⟩ ∧
    process_exchange exNs 999 11 =
      .error (.MissingRequiredSignature, []) ∧
    ProgramError.MissingRequiredSignature ≠
      .Custom .ExpectedAmountMismatch := by
  refine ⟨by decide, by rfl, by rfl, by decide⟩

/-- Claim C3 (amended): provided the taker is a transaction signer and the
deposit account decodes as a token account, every Exchange invocation
whose supplied amount differs from that token balance fails with
ExpectedAmountMismatch, with no external call issued (the aborted
invocation mutates nothing). -/
theorem exchange_amount_mismatch_rejected (accs : ExchangeAccounts)
    (a pid : Nat) (t : TokenAccount)
    (hs : accs.taker.is_signer = true)
    (ht : TokenAccount.unpack accs.pdas_temp_token_account.data = .ok t)
    (hne : a ≠ t.amount) :
    process_exchange accs a pid =
      .error (.Custom .ExpectedAmountMismatch, []) := by
  simp only [process_exchange, hs, ht]
  simp [hne]

/-- Witness for C3 (amended) at the Scenario A accounts with amount 999. -/
theorem exchange_amount_mismatch_rejected_witness :
    process_exchange exA 999 11 =
      .error (.Custom .ExpectedAmountMismatch, []) :=
  exchange_amount_mismatch_rejected exA 999 11 ⟨6, exPda, 100⟩
    (by rfl) (by rfl) (by decide)

/-- The non-signer account list with an undecodable record slot. -/
def exNsRaw : ExchangeAccounts :=
  { exNs with escrow_account := ⟨26, false, 3000000, 11, .raw [0, 1]⟩ }

/-- Counterexample to C10 as stated: an invocation whose supplied amount
(7) differs from the deposit balance (100) and whose record slot is
undecodable does not return ExpectedAmountMismatch when the taker did not
sign — the signer check runs even earlier. -/
theorem exchange_balance_check_nonsigner_cex :
    (7 : Nat) ≠ 100 ∧
    TokenAccount.unpack exNsRaw.pdas_temp_token_account.data =
      .ok ⟨6, exPda, 100⟩ ∧
    Escrow.unpack exNsRaw.escrow_account.data =
      .error .InvalidAccountData ∧
    process_exchange exNsRaw 7 11 =
      .error (.MissingRequiredSignature, []) ∧
    ProgramError.MissingRequiredSignature ≠
      .Custom .ExpectedAmountMismatch := by
  refine ⟨by decide, by rfl, by rfl, by rfl, by decide⟩

/-- Claim C10 (amended): provided the taker signs and the deposit account
decodes as a token account, whenever the supplied amount differs from that
balance the handler returns ExpectedAmountMismatch without decoding or
comparing the record: the slot's data may be replaced by anything —
uninitialized, undecodable, or mismatched on every field — without
changing the outcome. -/
theorem exchange_balance_check_before_record (accs : ExchangeAccounts)
    (a pid : Nat) (t : TokenAccount) (d : AccountData)
    (hs : accs.taker.is_signer = true)
    (ht : TokenAccount.unpack accs.pdas_temp_token_account.data = .ok t)
    (hne : a ≠ t.amount) :
    process_exchange
        { accs with escrow_account :=
            { accs.escrow_account with data := d } } a pid =
      .error (.Custom .ExpectedAmountMismatch, []) := by
  simp only [process_exchange, hs, ht]
  simp [hne]

/-- Witness for C10 (amended): the Scenario A accounts with the record
slot replaced by undecodable bytes still answer ExpectedAmountMismatch for
amount 999. -/
theorem exchange_balance_check_before_record_witness :
    process_exchange
        { exA with escrow_account :=
            { exA.escrow_account with data := .raw [3] } } 999 11 =
      .error (.Custom .ExpectedAmountMismatch, []) :=
  exchange_balance_check_before_record exA 999 11 ⟨6, exPda, 100⟩
    (.raw [3]) (by rfl) (by rfl) (by decide)

/-- Claim C4: once Exchange reaches the record checks (taker signed,
deposit decoded, amount matched, record decoded), any mismatch of the
record's deposit-account, initializer or initializer-receiving identity
against the corresponding supplied account makes the handler fail with
InvalidAccountData before any external call to the token service is
issued (the error result carries an empty call list). -/
theorem exchange_record_mismatch_rejected (accs : ExchangeAccounts)
    (a pid : Nat) (t : TokenAccount) (e : Escrow)
    (hs : accs.taker.is_signer = true)
    (ht : TokenAccount.unpack accs.pdas_temp_token_account.data = .ok t)
    (ha : a = t.amount)
    (he : Escrow.unpack accs.escrow_account.data = .ok e)
    (hmis : e.temp_token_account_pubkey ≠ accs.pdas_temp_token_account.key ∨
      e.initializer_pubkey ≠ accs.initializers_main_account.key ∨
      e.initializer_token_to_receive_account_pubkey ≠
        accs.initializers_token_to_receive_account.key) :
    process_exchange accs a pid = .error (.InvalidAccountData, []) := by
  simp only [process_exchange, hs, ht, he, ha]
  rcases hmis with h1 | h2 | h3
  · simp [h1]
  · by_cases h1 : e.temp_token_account_pubkey =
        accs.pdas_temp_token_account.key
    · simp [h1, h2]
    · simp [h1]
  · by_cases h1 : e.temp_token_account_pubkey =
        accs.pdas_temp_token_account.key
    · by_cases h2 : e.initializer_pubkey =
          accs.initializers_main_account.key
      · simp [h1, h2, h3]
      · simp [h1, h2]
    · simp [h1]

/-- Scenario C accounts: the record's deposit identity (99) does not match
the supplied deposit account (23). -/
def exMis : ExchangeAccounts :=
  { exA with escrow_account :=
      ⟨26, false, 3000000, 11, .escrow ⟨true, 24, 99, 25, 50⟩⟩ }

/-- Witness for C4: the Scenario C Exchange fails with InvalidAccountData
and an empty external-call list. -/
theorem exchange_record_mismatch_rejected_witness :
    process_exchange exMis 100 11 = .error (.InvalidAccountData, []) :=
  exchange_record_mismatch_rejected exMis 100 11 ⟨6, exPda, 100⟩
    ⟨true, 24, 99, 25, 50⟩ (by rfl) (by rfl) (by rfl) (by rfl)
    (by left; decide)

/-- Claim C5: the four Initiate preconditions run in the fixed order —
signer, receiving-account ownership, rent exemption, uninitialized slot —
and the first failing one aborts the handler with its error before any
mutation or external call: a non-signer fails with the signature error
whatever else holds; with a signer, wrong ownership fails with
IncorrectProgramId whatever else holds; with both, a non-rent-exempt slot
fails with NotRentExempt even if the slot is already initialized; with all
three, an initialized slot fails with AccountAlreadyInitialized. -/
theorem init_precondition_order (accs : InitAccounts) (a pid : Nat) :
    (accs.initializer.is_signer = false →
      process_init_escrow accs a pid =
        .error (.MissingRequiredSignature, [])) ∧
    (accs.initializer.is_signer = true →
      accs.token_to_receive_account.owner ≠ spl_token_id →
      process_init_escrow accs a pid =
        .error (.IncorrectProgramId, [])) ∧
    (accs.initializer.is_signer = true →
      accs.token_to_receive_account.owner = spl_token_id →
      accs.rent.is_exempt accs.escrow_account.lamports
          accs.escrow_account.data.len = false →
      process_init_escrow accs a pid =
        .error (.Custom .NotRentExempt, [])) ∧
    (∀ e : Escrow, accs.initializer.is_signer = true →
      accs.token_to_receive_account.owner = spl_token_id →
      accs.rent.is_exempt accs.escrow_account.lamports
          accs.escrow_account.data.len = true →
      Escrow.unpack_unchecked accs.escrow_account.data = .ok e →
      e.is_initialized = true →
      process_init_escrow accs a pid =
        .error (.AccountAlreadyInitialized, [])) := by
  refine ⟨fun hs => ?_, fun hs how => ?_, fun hs how hr => ?_,
    fun e hs how hr hu hi => ?_⟩
  · simp [process_init_escrow, hs]
  · simp [process_init_escrow, hs, how]
  · simp [process_init_escrow, hs, how, hr]
  · simp only [process_init_escrow, hs, how, hr, hu]
    simp [hi]

/-- Initiate account list with a non-signing initializer. -/
def inNs : InitAccounts := { inA with initializer := ⟨24, false, 10, 0, .raw []⟩ }

/-- Initiate account list whose receiving account is owned by the wrong
service (5 instead of the token service). -/
def inBadOwner : InitAccounts :=
  { inA with token_to_receive_account := ⟨25, false, 100, 5, .token ⟨5, 24, 7⟩⟩ }

/-- Initiate account list whose record slot holds no lamports, failing the
rent-exemption threshold. -/
def inNoRent : InitAccounts :=
  { inA with escrow_account := ⟨26, false, 0, 11, .escrow ⟨false, 0, 0, 0, 0⟩⟩ }

/-- Initiate account list whose record slot already holds an initialized
record (and is rent-exempt). -/
def inInit : InitAccounts :=
  { inA with escrow_account :=
      ⟨26, false, 3000000, 11, .escrow ⟨true, 24, 23, 25, 50⟩⟩ }

/-- Witness for C5: each of the four ordered preconditions fires on a
concrete account list. -/
theorem init_precondition_order_witness :
    process_init_escrow inNs 50 11 =
      .error (.MissingRequiredSignature, []) ∧
    process_init_escrow inBadOwner 50 11 =
      .error (.IncorrectProgramId, []) ∧
    process_init_escrow inNoRent 50 11 =
      .error (.Custom .NotRentExempt, []) ∧
    process_init_escrow inInit 50 11 =
      .error (.AccountAlreadyInitialized, []) :=
  ⟨(init_precondition_order inNs 50 11).1 (by rfl),
   (init_precondition_order inBadOwner 50 11).2.1 (by rfl) (by decide),
   (init_precondition_order inNoRent 50 11).2.2.1 (by rfl) (by rfl) (by rfl),
   (init_precondition_order inInit 50 11).2.2.2 ⟨true, 24, 23, 25, 50⟩
     (by rfl) (by rfl) (by rfl) (by rfl) (by rfl)⟩

/-- Initiate account list whose record slot is already initialized and at
the same time not rent-exempt. -/
def inBoth : InitAccounts :=
  { inA with escrow_account :=
      ⟨26, false, 0, 11, .escrow ⟨true, 24, 23, 25, 50⟩⟩ }

/-- Counterexample to C6 as stated: on a slot that is already initialized
but not rent-exempt, Initiate fails with NotRentExempt, not with
AlreadyInitialized — the rent check runs first. -/
theorem init_already_initialized_not_rent_exempt_cex :
    Escrow.unpack_unchecked inBoth.escrow_account.data =
      .ok ⟨true, 24, 23, 25, 50⟩ ∧
    inBoth.rent.is_exempt inBoth.escrow_account.lamports
      inBoth.escrow_account.data.len = false ∧
    process_init_escrow inBoth 50 11 = .error (.Custom .NotRentExempt, []) ∧
    ProgramError.Custom .NotRentExempt ≠ .AccountAlreadyInitialized := by
  refine ⟨by rfl, by rfl, by rfl, by decide⟩

/-- Claim C6 (amended): provided the three earlier preconditions pass (the
initializer signs, the receiving account is owned by the token service,
and the slot is rent-exempt), Initiate on a slot already holding an
initialized record fails with AccountAlreadyInitialized, with no external
call issued and hence the record left unchanged (the error result aborts
the invocation before any mutation is persisted). -/
theorem init_already_initialized_rejected (accs : InitAccounts)
    (a pid : Nat) (e : Escrow)
    (hs : accs.initializer.is_signer = true)
    (how : accs.token_to_receive_account.owner = spl_token_id)
    (hr : accs.rent.is_exempt accs.escrow_account.lamports
      accs.escrow_account.data.len = true)
    (hu : Escrow.unpack_unchecked accs.escrow_account.data = .ok e)
    (hi : e.is_initialized = true) :
    process_init_escrow accs a pid =
      .error (.AccountAlreadyInitialized, []) := by
  simp only [process_init_escrow, hs, how, hr, hu]
  simp [hi]

/-- Witness for C6 (amended) at the initialized, rent-exempt slot. -/
theorem init_already_initialized_rejected_witness :
    process_init_escrow inInit 50 11 =
      .error (.AccountAlreadyInitialized, []) :=
  init_already_initialized_rejected inInit 50 11 ⟨true, 24, 23, 25, 50⟩
    (by rfl) (by rfl) (by rfl) (by rfl) (by rfl)

/-- The custody-authority placeholder account passed last is never read by
process_exchange: replacing it changes nothing but the copy of it in the
returned account list. -/
theorem process_exchange_pda_irrelevant (accs : ExchangeAccounts)
    (x : AccountInfo) (a pid : Nat) :
    process_exchange { accs with pda_account := x } a pid =
      (process_exchange accs a pid).map
        (fun p => ({ p.1 with pda_account := x }, p.2)) := by
  simp only [process_exchange]
  repeat' split
  all_goals simp [Except.map]

/-- Claim C7: the custody address and nonce used as authority and signing
seeds for the two keyless-authenticated external calls are re-derived
inside the handler from the fixed seed and the program identity: on every
successful Exchange the second and third issued calls carry exactly the
derived address as authority and the fixed seed plus derived nonce as
signer seeds, and no caller-supplied value — in particular the
custody-authority placeholder account — influences the handler's
behavior. -/
theorem exchange_custody_derivation (accs : ExchangeAccounts) (a pid : Nat)
    (st : ExchangeAccounts) (tr : List ExtCall)
    (h : process_exchange accs a pid = .ok (st, tr)) :
    (∀ x : AccountInfo,
      process_exchange { accs with pda_account := x } a pid =
        .ok ({ st with pda_account := x }, tr)) ∧
    ∃ e t,
      Escrow.unpack accs.escrow_account.data = .ok e ∧
      TokenAccount.unpack accs.pdas_temp_token_account.data = .ok t ∧
      tr = [⟨accs.token_program.key,
              .transfer accs.takers_sending_token_account.key
                accs.initializers_token_to_receive_account.key
                accs.taker.key e.expected_amount, []⟩,
            ⟨accs.token_program.key,
              .transfer accs.pdas_temp_token_account.key
                accs.takers_token_to_receive_account.key
                (find_program_address [escrowSeed] pid).1 t.amount,
              [escrowSeed, [(find_program_address [escrowSeed] pid).2]]⟩,
            ⟨accs.token_program.key,
              .closeAccount accs.pdas_temp_token_account.key
                accs.initializers_main_account.key
                (find_program_address [escrowSeed] pid).1,
              [escrowSeed, [(find_program_address [escrowSeed] pid).2]]⟩] := by
  constructor
  · intro x
    rw [process_exchange_pda_irrelevant, h]
    rfl
  · simp only [process_exchange] at h
    split at h
    · exact absurd h (by simp)
    split at h
    · exact absurd h (by simp)
    case h_2 t hunpt =>
    split at h
    · exact absurd h (by simp)
    split at h
    · exact absurd h (by simp)
    case h_2 e hunpe =>
    split at h
    · exact absurd h (by simp)
    split at h
    · exact absurd h (by simp)
    split at h
    · exact absurd h (by simp)
    split at h
    · exact absurd h (by simp)
    split at h
    · exact absurd h (by simp)
    split at h
    · exact absurd h (by simp)
    split at h
    · exact absurd h (by simp)
    simp only [Except.ok.injEq, Prod.mk.injEq] at h
    obtain ⟨-, htr⟩ := h
    exact ⟨e, t, hunpe, hunpt, htr.symm⟩

/-- Witness for C7: the Scenario A Exchange, whose placeholder account can
be replaced arbitrarily and whose second and third calls carry the derived
authority and seeds. -/
theorem exchange_custody_derivation_witness :
    (process_exchange
        { exA with pda_account := ⟨77, false, 0, 0, .raw []⟩ } 100 11 =
      .ok ({ exAOut with pda_account := ⟨77, false, 0, 0, .raw []⟩ },
        exACalls)) ∧
    ∃ e t,
      Escrow.unpack exA.escrow_account.data = .ok e ∧
      TokenAccount.unpack exA.pdas_temp_token_account.data = .ok t ∧
      exACalls = [⟨exA.token_program.key,
              .transfer exA.takers_sending_token_account.key
                exA.initializers_token_to_receive_account.key
                exA.taker.key e.expected_amount, []⟩,
            ⟨exA.token_program.key,
              .transfer exA.pdas_temp_token_account.key
                exA.takers_token_to_receive_account.key
                (find_program_address [escrowSeed] 11).1 t.amount,
              [escrowSeed, [(find_program_address [escrowSeed] 11).2]]⟩,
            ⟨exA.token_program.key,
              .closeAccount exA.pdas_temp_token_account.key
                exA.initializers_main_account.key
                (find_program_address [escrowSeed] 11).1,
              [escrowSeed, [(find_program_address [escrowSeed] 11).2]]⟩] :=
  ⟨(exchange_custody_derivation exA 100 11 exAOut exACalls (by rfl)).1
      ⟨77, false, 0, 0, .raw []⟩,
   (exchange_custody_derivation exA 100 11 exAOut exACalls (by rfl)).2⟩

/-- Claim C8: when every check and external call of Exchange has gone
through but adding the escrow record slot's lamports to the initializer's
main account (as updated by the deposit-account refund) would exceed the
u64 range, the handler fails with the arithmetic-overflow error
AmountOverflow instead of wrapping or truncating. -/
theorem exchange_sweep_overflow (accs : ExchangeAccounts) (a pid : Nat)
    (t : TokenAccount) (e : Escrow) (s' r' temp' tk' tc main' : AccountInfo)
    (hs : accs.taker.is_signer = true)
    (ht : TokenAccount.unpack accs.pdas_temp_token_account.data = .ok t)
    (ha : a = t.amount)
    (he : Escrow.unpack accs.escrow_account.data = .ok e)
    (h1 : e.temp_token_account_pubkey = accs.pdas_temp_token_account.key)
    (h2 : e.initializer_pubkey = accs.initializers_main_account.key)
    (h3 : e.initializer_token_to_receive_account_pubkey =
      accs.initializers_token_to_receive_account.key)
    (htr1 : spl_transfer accs.takers_sending_token_account
      accs.initializers_token_to_receive_account accs.taker.key
      true e.expected_amount = .ok (s', r'))
    (htr2 : spl_transfer accs.pdas_temp_token_account
      accs.takers_token_to_receive_account
      (find_program_address [escrowSeed] pid).1
      (seedsAuthenticate
        [escrowSeed, [(find_program_address [escrowSeed] pid).2]] pid
        (find_program_address [escrowSeed] pid).1) t.amount =
      .ok (temp', tk'))
    (hcl : spl_close_account temp' accs.initializers_main_account
      (find_program_address [escrowSeed] pid).1
      (seedsAuthenticate
        [escrowSeed, [(find_program_address [escrowSeed] pid).2]] pid
        (find_program_address [escrowSeed] pid).1) = .ok (tc, main'))
    (hof : U64_BOUND ≤ main'.lamports + accs.escrow_account.lamports) :
    process_exchange accs a pid = .error (.Custom .AmountOverflow,
      [⟨accs.token_program.key,
          .transfer accs.takers_sending_token_account.key
            accs.initializers_token_to_receive_account.key
            accs.taker.key e.expected_amount, []⟩,
       ⟨accs.token_program.key,
          .transfer accs.pdas_temp_token_account.key
            accs.takers_token_to_receive_account.key
            (find_program_address [escrowSeed] pid).1 t.amount,
          [escrowSeed, [(find_program_address [escrowSeed] pid).2]]⟩,
       ⟨accs.token_program.key,
          .closeAccount accs.pdas_temp_token_account.key
            accs.initializers_main_account.key
            (find_program_address [escrowSeed] pid).1,
          [escrowSeed, [(find_program_address [escrowSeed] pid).2]]⟩]) := by
  subst ha
  simp only [process_exchange, hs, ht, he, h1, h2, h3, htr1, htr2, hcl]
  simp [hof]

/-- The Scenario A accounts with the initializer's main balance raised so
that the final sweep would overflow u64. -/
def exOf : ExchangeAccounts :=
  { exA with initializers_main_account :=
      ⟨24, false, 2 ^ 64 - 2000001, 0, .raw []⟩ }

/-- Witness for C8: on the near-u64 account list, Exchange issues its
three calls and then fails the sweep with AmountOverflow. -/
theorem exchange_sweep_overflow_witness :
    process_exchange exOf 100 11 = .error (.Custom .AmountOverflow,
      [⟨exOf.token_program.key,
          .transfer exOf.takers_sending_token_account.key
            exOf.initializers_token_to_receive_account.key
            exOf.taker.key 50, []⟩,
       ⟨exOf.token_program.key,
          .transfer exOf.pdas_temp_token_account.key
            exOf.takers_token_to_receive_account.key
            (find_program_address [escrowSeed] 11).1 100,
          [escrowSeed, [(find_program_address [escrowSeed] 11).2]]⟩,
       ⟨exOf.token_program.key,
          .closeAccount exOf.pdas_temp_token_account.key
            exOf.initializers_main_account.key
            (find_program_address [escrowSeed] 11).1,
          [escrowSeed, [(find_program_address [escrowSeed] 11).2]]⟩]) :=
  exchange_sweep_overflow exOf 100 11 ⟨6, exPda, 100⟩ ⟨true, 24, 23, 25, 50⟩
    ⟨21, false, 100, 961, .token ⟨5, 20, 0⟩⟩
    ⟨25, false, 100, 961, .token ⟨5, 24, 57⟩⟩
    ⟨23, false, 2000000, 961, .token ⟨6, exPda, 0⟩⟩
    ⟨22, false, 100, 961, .token ⟨6, 20, 100⟩⟩
    ⟨23, false, 0, 961, .raw []⟩
    ⟨24, false, 2 ^ 64 - 1, 0, .raw []⟩
    (by rfl) (by rfl) (by rfl) (by rfl) (by rfl) (by rfl) (by rfl)
    (by rfl) (by rfl) (by rfl) (by decide)

/-- The error component of a handler result, if any. -/
def resultError {σ : Type} (r : HandlerResult σ) :
    Option (ProgramError × List ExtCall) :=
  match r with
  | .error e => some e
  | .ok _ => none

/-- Claim C9: Initiate never validates the amount argument: for every u64
amount (0 included) the invocation fails or succeeds exactly as it would
with amount 0, with the identical error when it fails, and on success the
record's expected_amount is the supplied amount verbatim. -/
theorem init_amount_unvalidated (accs : InitAccounts) (pid a : Nat)
    (_ha : a < U64_BOUND) :
    resultError (process_init_escrow accs a pid) =
      resultError (process_init_escrow accs 0 pid) ∧
    ∀ st tr, process_init_escrow accs a pid = .ok (st, tr) →
      st.escrow_account.data = .escrow
        { is_initialized := true
          initializer_pubkey := accs.initializer.key
          temp_token_account_pubkey := accs.temp_token_account.key
          initializer_token_to_receive_account_pubkey :=
            accs.token_to_receive_account.key
          expected_amount := a } := by
  constructor
  · simp only [process_init_escrow]
    repeat' split
    all_goals rfl
  · intro st tr h
    simp only [process_init_escrow] at h
    split at h
    · exact absurd h (by simp)
    split at h
    · exact absurd h (by simp)
    split at h
    · exact absurd h (by simp)
    split at h
    · exact absurd h (by simp)
    split at h
    · exact absurd h (by simp)
    split at h
    · exact absurd h (by simp)
    simp only [Except.ok.injEq, Prod.mk.injEq] at h
    obtain ⟨hst, -⟩ := h
    subst hst
    rfl

/-- The account state after the concrete Initiate with amount 7. -/
def inAOut7 : InitAccounts :=
  { inA with
    temp_token_account := ⟨23, false, 2000000, 961, .token ⟨6, exPda, 100⟩⟩
    escrow_account := ⟨26, false, 3000000, 11, .escrow ⟨true, 24, 23, 25, 7⟩⟩ }

/-- Witness for C9: amount 7 leaves the error behavior identical to amount
0, and the successful run records expected_amount 7 verbatim. -/
theorem init_amount_unvalidated_witness :
    resultError (process_init_escrow inA 7 11) =
      resultError (process_init_escrow inA 0 11) ∧
    inAOut7.escrow_account.data = .escrow
      { is_initialized := true
        initializer_pubkey := inA.initializer.key
        temp_token_account_pubkey := inA.temp_token_account.key
        initializer_token_to_receive_account_pubkey :=
          inA.token_to_receive_account.key
        expected_amount := 7 } :=
  ⟨(init_amount_unvalidated inA 11 7 (by decide)).1,
   (init_amount_unvalidated inA 11 7 (by decide)).2 inAOut7 inACalls (by rfl)⟩

end SolanaEscrow
